import Mathlib

/-!
Shallow embedding of `src/SelectPicker/SelectPicker.tsx` (rsuite SelectPicker
component). The component's value type is `T extends number | string`; event
handlers are sequences of state writes, callback invocations and imperative
calls, modelled here as lists of operations (`Op`) interpreted over an
explicit component state (`PickerState`). Derived render data (`hasValue`,
`selectedElement`, the toggle's displayed children) is modelled as a pure
function of the props and the current value, mirroring lines 300-323 and
421 of the source.
-/

namespace SelectPicker

/-- JS primitive value for the generic parameter `T extends number | string`.
Truthiness follows JavaScript: `0` and the empty string are falsy. -/
inductive JSVal where
  | num : Int → JSVal
  | str : String → JSVal
deriving DecidableEq, Repr

/-- JavaScript truthiness of a primitive value. -/
def JSVal.truthy : JSVal → Bool
  | .num n => n != 0
  | .str s => s != ""

/-- JS truthiness of a possibly-null/undefined value: `!x` in the source is
true for `null`, `undefined`, `0` and the empty string. -/
def jsTruthyOpt : Option JSVal → Bool
  | none => false
  | some v => v.truthy

/-- ReactNode as used for labels, placeholders and render results: `nil`
stands for `null`/`undefined`, `text` and `num` for string/number nodes
(falsy when empty/zero), `elem` for an element node (always truthy). -/
inductive RNode where
  | nil : RNode
  | text : String → RNode
  | num : Int → RNode
  | elem : String → RNode
deriving DecidableEq, Repr

/-- lodash `isNil`: true exactly for `null`/`undefined`. -/
def RNode.isNil : RNode → Bool
  | .nil => true
  | _ => false

/-- JavaScript truthiness of a ReactNode, as tested by
`if (activeItem?.[labelKey])` (line 313) and by `selectedElement || ...`
(line 421). -/
def RNode.truthy : RNode → Bool
  | .nil => false
  | .text s => s != ""
  | .num n => n != 0
  | .elem _ => true

/-- String form of a label node, used by the default search rule. -/
def RNode.textContent : RNode → String
  | .nil => ""
  | .text s => s
  | .num n => toString n
  | .elem t => t

/-- One entry of `data`: `value` is `item[valueKey]`, `label` is
`item[labelKey]`, `groupValue` is `item[groupBy]` when grouping is used.
Identity is by the configured value field (spec section 3). -/
structure ItemData where
  value : JSVal
  label : RNode
  groupValue : String := ""
deriving DecidableEq, Repr

/-- Utility `shallowEqual` from `../utils` applied to the primitive values this
component's `T` ranges over (number or string): plain equality. -/
def shallowEqual (a b : JSVal) : Bool := a == b

/-- The component's mutable state: `value` is the Selection held by
`useControlled` (modelled in uncontrolled mode, where the setter writes the
state), `focusItemValue` from `useFocusItemValue`, `searchKeyword` and
`filteredData` from `useSearch`, `active` from `useState` (line 208). -/
structure PickerState where
  value : Option JSVal := none
  focusItemValue : Option JSVal := none
  searchKeyword : String := ""
  active : Bool := false
  filteredData : List ItemData := []
deriving DecidableEq, Repr

/-- Props of the component that the claims depend on, with the source's
default values (`cleanable = true`, `data = []`). `renderValue` receives
`(value, activeItem, selectedElement)` as at line 318. -/
structure PickerConfig where
  data : List ItemData := []
  disabled : Bool := false
  cleanable : Bool := true
  groupBy : Option String := none
  sort : Option (Bool → ItemData → ItemData → Int) := none
  renderValue : Option (JSVal → Option ItemData → RNode → RNode) := none
  placeholder : RNode := RNode.nil
  localePlaceholder : RNode := RNode.nil

/-- One primitive operation performed by an event handler: a state write, a
notification callback (`onSelect`, `onChange`, `onSearch`, `onOpen`,
`onClose`), refocusing the toggle (`targetRef.current?.focus()`), or closing
the overlay (`triggerRef.current?.close?.()`). -/
inductive Op where
  | setValue : Option JSVal → Op
  | setFocusItemValue : Option JSVal → Op
  | setSearchKeyword : String → Op
  | setActive : Bool → Op
  | setFilteredData : List ItemData → Op
  | onSelect : JSVal → Option ItemData → Op
  | onChange : Option JSVal → Op
  | onSearch : String → Op
  | onOpen : Op
  | onClose : Op
  | focusTarget : Op
  | closeOverlay : Op
deriving DecidableEq, Repr

/-- Interpretation of a single operation on the component state; callback
invocations and imperative calls do not change this state. -/
def applyOp (s : PickerState) : Op → PickerState
  | .setValue v => { s with value := v }
  | .setFocusItemValue v => { s with focusItemValue := v }
  | .setSearchKeyword k => { s with searchKeyword := k }
  | .setActive b => { s with active := b }
  | .setFilteredData d => { s with filteredData := d }
  | _ => s

/-- Interpretation of an operation sequence, first to last. -/
def applyOps (s : PickerState) (ops : List Op) : PickerState :=
  ops.foldl applyOp s

/-- Operations that are notification callbacks. -/
def isCallbackOp : Op → Bool
  | .onSelect _ _ => true
  | .onChange _ => true
  | .onSearch _ => true
  | .onOpen => true
  | .onClose => true
  | _ => false

/-- Operations named by the commit contract: Selection write, FocusedValue
write, `onSelect`, `onChange`, overlay close. -/
def isCommitEffect : Op → Bool
  | .setValue _ => true
  | .setFocusItemValue _ => true
  | .onSelect _ _ => true
  | .onChange _ => true
  | .closeOverlay => true
  | _ => false

/-- Handler `handleSelect` (lines 214-220): invoke `onSelect` with the raw value and
the item, then refocus the toggle element. -/
def handleSelectOps (v : JSVal) (item : Option ItemData) : List Op :=
  [Op.onSelect v item, Op.focusTarget]

/-- Handler `handleChangeValue` (lines 222-227): invoke `onChange` with the value. -/
def handleChangeValueOps (v : Option JSVal) : List Op :=
  [Op.onChange v]

/-- Handler `handleClose` (lines 210-212): close the overlay through the trigger. -/
def handleCloseOps : List Op :=
  [Op.closeOverlay]

/-- Handler `handleMenuPressEnter` (lines 229-244). The guard `if (!focusItemValue)
return` is JS-falsy: it also bails out when the focused value is `0` or the
empty string. Otherwise the committed item is looked up in the full `data`
list with `shallowEqual` on the value field (line 236; `find` yields
`undefined`, i.e. `none`, when nothing matches — the non-null assertion `!`
is erased at runtime), then `setValue`, `handleSelect`, `handleChangeValue`,
`handleClose` run in that order. -/
def handleMenuPressEnter (cfg : PickerConfig) (s : PickerState) : List Op :=
  match s.focusItemValue with
  | none => []
  | some fv =>
    if fv.truthy then
      let focusItem := cfg.data.find? fun item => shallowEqual item.value fv
      [Op.setValue (some fv)] ++ handleSelectOps fv focusItem
        ++ handleChangeValueOps (some fv) ++ handleCloseOps
    else []

/-- Handler `handleItemSelect` (lines 246-256): `setValue`, `setFocusItemValue`,
`handleSelect`, `handleChangeValue`, `handleClose`, in that order. -/
def handleItemSelect (v : JSVal) (item : ItemData) : List Op :=
  [Op.setValue (some v), Op.setFocusItemValue (some v)]
    ++ handleSelectOps v (some item) ++ handleChangeValueOps (some v)
    ++ handleCloseOps

/-- Handler `handleClean` (lines 258-268): bail out when disabled or not cleanable;
otherwise set the value to null, reset the focus value to the value that was
current before clearing, and fire `onChange` with null. -/
def handleClean (cfg : PickerConfig) (s : PickerState) : List Op :=
  if cfg.disabled || !cfg.cleanable then []
  else
    [Op.setValue none, Op.setFocusItemValue s.value]
      ++ handleChangeValueOps none

/-- Handler `handleExited` (lines 286-290): reset the keyword, deactivate, fire
`onClose`. -/
def handleExited : List Op :=
  [Op.setSearchKeyword "", Op.setActive false, Op.onClose]

/-- Handler `handleEntered` (lines 292-296): activate, set the focus value to the
current Selection, fire `onOpen`. -/
def handleEntered (s : PickerState) : List Op :=
  [Op.setActive true, Op.setFocusItemValue s.value, Op.onOpen]

/-- Inline `onClose` prop passed to `useToggleKeyDownEvent` (lines 280-282):
clear the focus value. -/
def keyDownOnCloseOps : List Op :=
  [Op.setFocusItemValue none]

/-- Modelled from the spec: `useToggleKeyDownEvent` and the overlay trigger
live in `../Picker`, outside this repository's sources; per spec section 4.4
a close of the overlay runs the `onClose` prop wired at lines 280-282 and
then the exited lifecycle, which chains `handleExited` (line 402). -/
def closeOverlayTransition : List Op :=
  keyDownOnCloseOps ++ handleExited

/-- Case-insensitive substring test, the default search rule of spec
section 4.2. -/
def strContainsCI (hay needle : String) : Bool :=
  let h := hay.toLower.toList
  let n := needle.toLower.toList
  (List.range (h.length + 1)).any fun i => n.isPrefixOf (h.drop i)

/-- Modelled from the spec: the filter computed by `useSearch` (module
`../Picker`, not among this repository's sources) — the subsequence of
options whose label matches the keyword, case-insensitive substring match by
default (spec section 4.2). -/
def specFilterData (keyword : String) (data : List ItemData) : List ItemData :=
  data.filter fun item => strContainsCI item.label.textContent keyword

/-- Callback body passed to `useSearch` (lines 192-201): set the focus value
to `filteredData?.[0]?.[valueKey]` (so `none` when the filtered list is
empty) and invoke `onSearch` with the keyword. -/
def searchCallbackOps (keyword : String) (filteredData : List ItemData) :
    List Op :=
  [Op.setFocusItemValue (filteredData.head?.map fun i => i.value),
   Op.onSearch keyword]

/-- Modelled from the spec: on a keyword change `useSearch` (module
`../Picker`, not among this repository's sources) recomputes the filtered
list, stores the keyword and the filtered list, and invokes its callback
with them (spec section 4.2); the callback body is from src lines 192-201. -/
def useSearchUpdate (cfg : PickerConfig) (keyword : String) : List Op :=
  let fd := specFilterData keyword cfg.data
  [Op.setSearchKeyword keyword, Op.setFilteredData fd]
    ++ searchCallbackOps keyword fd

/-- Lookup `activeItem` (line 301): `data.find(item => shallowEqual(item[valueKey],
value))`. A null/undefined value matches no item, since every item carries a
primitive value. -/
def findActiveItem (data : List ItemData) (value : Option JSVal) :
    Option ItemData :=
  match value with
  | none => none
  | some v => data.find? fun item => shallowEqual item.value v

/-- First pass of `hasValue` (line 307): `!!activeItem || (!isNil(value) &&
isFunction(renderValue))`. -/
def hasValueFirstPass (cfg : PickerConfig) (value : Option JSVal) : Bool :=
  (findActiveItem cfg.data value).isSome
    || (value.isSome && cfg.renderValue.isSome)

/-- Outcome of the render derivation: the (possibly corrected) `hasValue`
flag, the `selectedElement` after lines 311-323, the toggle's displayed
children `selectedElement || locale?.placeholder` (line 421), and whether
`renderValue` was invoked together with its result. -/
structure RenderOutcome where
  hasValue : Bool
  selectedElement : RNode
  displayed : RNode
  renderValueInvoked : Bool
  renderValueResult : Option RNode

/-- Whether an invoked custom renderer returned null/undefined. -/
def RenderOutcome.resultIsNil (o : RenderOutcome) : Bool :=
  match o.renderValueResult with
  | some r => r.isNil
  | none => false

/-- Render derivation of lines 300-323 and 421: compute `activeItem` and the
optimistic `hasValue`; start `selectedElement` at the placeholder, replace it
by the matched label when that label is truthy (line 313); when the value is
non-nil and `renderValue` is a function, replace it by
`renderValue(value, activeItem, selectedElement)` and correct `hasValue` to
false when that result is nil (lines 317-323); the toggle displays
`selectedElement || locale?.placeholder`. -/
def computeRender (cfg : PickerConfig) (value : Option JSVal) :
    RenderOutcome :=
  let activeItem := findActiveItem cfg.data value
  let hasValue0 := hasValueFirstPass cfg value
  let se0 : RNode := cfg.placeholder
  let se1 : RNode :=
    match activeItem with
    | some item => if item.label.truthy then item.label else se0
    | none => se0
  match value, cfg.renderValue with
  | some v, some rv =>
    let r := rv v activeItem se1
    { hasValue := if r.isNil then false else hasValue0
      selectedElement := r
      displayed := if r.truthy then r else cfg.localePlaceholder
      renderValueInvoked := true
      renderValueResult := some r }
  | _, _ =>
    { hasValue := hasValue0
      selectedElement := se1
      displayed := if se1.truthy then se1 else cfg.localePlaceholder
      renderValueInvoked := false
      renderValueResult := none }

/-- The `selectedElement` an invoked custom renderer receives (line 318):
the matched truthy label, else the configured placeholder. -/
def labelOrPlaceholder (cfg : PickerConfig) (value : Option JSVal) : RNode :=
  match findActiveItem cfg.data value with
  | some item => if item.label.truthy then item.label else cfg.placeholder
  | none => cfg.placeholder

/-- Display cascade written from the amended claim's words, to be compared
with `computeRender`: custom-rendered value when supplied, Selection non-null
and the result truthy; locale default placeholder when the renderer was
invoked but its result is falsy; otherwise the matched option's label when
truthy; otherwise the configured placeholder when truthy; otherwise the
locale default placeholder. -/
def specDisplayedContent (cfg : PickerConfig) (value : Option JSVal) :
    RNode :=
  match value, cfg.renderValue with
  | some v, some rv =>
    let r := rv v (findActiveItem cfg.data value) (labelOrPlaceholder cfg value)
    if r.truthy then r else cfg.localePlaceholder
  | _, _ =>
    match findActiveItem cfg.data value with
    | some item =>
      if item.label.truthy then item.label
      else if cfg.placeholder.truthy then cfg.placeholder
      else cfg.localePlaceholder
    | none =>
      if cfg.placeholder.truthy then cfg.placeholder
      else cfg.localePlaceholder

/-- Menu items shown in the overlay: a flat list, or group nodes each
holding their member options when `groupBy` is set. -/
inductive MenuItems where
  | flat : List ItemData → MenuItems
  | grouped : List (String × List ItemData) → MenuItems
deriving DecidableEq, Repr

/-- Modelled from the spec: `getDataGroupBy` (module `../utils`, not among
this repository's sources) builds a new two-level grouped sequence — one
group per distinct grouping value in first-seen order, each holding its
matching options in original relative order (spec section 4.3; the optional
comparator is not modelled, no claim depends on it). -/
def getDataGroupBy (l : List ItemData) : List (String × List ItemData) :=
  ((l.map fun i => i.groupValue).eraseDups).map
    fun g => (g, l.filter fun i => i.groupValue == g)

/-- Stable insertion of one item into a list sorted by `le`. -/
def jsSortInsert (le : ItemData → ItemData → Bool) (a : ItemData) :
    List ItemData → List ItemData
  | [] => [a]
  | b :: bs => if le a b then a :: b :: bs else b :: jsSortInsert le a bs

/-- Result of JS `Array.prototype.sort` with a numeric comparator: a stable
sort (required since ES2019) placing `a` before `b` when `cmp a b ≤ 0`.
`Array.prototype.sort` sorts its receiver in place and returns that same
array; the in-place write is modelled explicitly in `renderMenuItems`. -/
def jsSort (cmp : ItemData → ItemData → Int) : List ItemData → List ItemData
  | [] => []
  | a :: as => jsSortInsert (fun x y => decide (cmp x y ≤ 0)) a (jsSort cmp as)

/-- Item computation of `renderDropdownMenu` (lines 329-336): start from
`filteredData`; when `groupBy` is set, derive a new grouped structure; else
when `sort` is a function, call `items.sort(sort(false))` — JS sorts the
array in place, so the state-held `filteredData` itself ends up reordered,
which the returned post-render state records. -/
def renderMenuItems (cfg : PickerConfig) (s : PickerState) :
    MenuItems × PickerState :=
  match cfg.groupBy with
  | some _ => (MenuItems.grouped (getDataGroupBy s.filteredData), s)
  | none =>
    match cfg.sort with
    | some cmp =>
      let sorted := jsSort (cmp false) s.filteredData
      (MenuItems.flat sorted, { s with filteredData := sorted })
    | none => (MenuItems.flat s.filteredData, s)

/-- Concrete option used by witnesses: value 1, label "One". -/
def itemOne : ItemData := { value := JSVal.num 1, label := RNode.text "One" }

/-- Concrete option used by witnesses: value 2, label "Two". -/
def itemTwo : ItemData := { value := JSVal.num 2, label := RNode.text "Two" }

/-- Configuration holding the two concrete options. -/
def cfgTwoItems : PickerConfig := { data := [itemOne, itemTwo] }

/-- State with the option of value 2 keyboard-focused. -/
def stFocusTwo : PickerState := { focusItemValue := some (JSVal.num 2) }

/-- C1: every commit of a new Selection — by option click (`handleItemSelect`)
or by Enter with a focused option (`handleMenuPressEnter`) — updates
Selection to the committed value, leaves FocusedValue equal to that value,
invokes `onSelect` with the raw value and the matched Option, invokes
`onChange` with the raw value, and closes the overlay, in that order: the
full operation traces are given, and restricting them to the commit-contract
operations yields exactly the claimed sequence. In the click path
FocusedValue is written explicitly; in the Enter path the committed value is
the focused value itself, so FocusedValue already equals it and is left
untouched. The additional `Op.focusTarget` between `onSelect` and `onChange`
is the toggle refocus inside `handleSelect` (line 217). -/
theorem commit_updates_selection_then_notifies_then_closes
    (cfg : PickerConfig) (s : PickerState) (v fv : JSVal) (item : ItemData)
    (hfv : s.focusItemValue = some fv) (ht : fv.truthy = true) :
    (handleItemSelect v item =
        [Op.setValue (some v), Op.setFocusItemValue (some v),
         Op.onSelect v (some item), Op.focusTarget, Op.onChange (some v),
         Op.closeOverlay]
      ∧ (handleItemSelect v item).filter isCommitEffect =
        [Op.setValue (some v), Op.setFocusItemValue (some v),
         Op.onSelect v (some item), Op.onChange (some v), Op.closeOverlay]
      ∧ (applyOps s (handleItemSelect v item)).value = some v
      ∧ (applyOps s (handleItemSelect v item)).focusItemValue = some v)
    ∧ (handleMenuPressEnter cfg s =
        [Op.setValue (some fv),
         Op.onSelect fv (cfg.data.find? fun i => shallowEqual i.value fv),
         Op.focusTarget, Op.onChange (some fv), Op.closeOverlay]
      ∧ (applyOps s (handleMenuPressEnter cfg s)).value = some fv
      ∧ (applyOps s (handleMenuPressEnter cfg s)).focusItemValue = some fv) := by
  refine ⟨⟨rfl, rfl, rfl, rfl⟩, ?_, ?_, ?_⟩ <;>
    simp [handleMenuPressEnter, hfv, ht, handleSelectOps, handleChangeValueOps,
      handleCloseOps, applyOps, applyOp]

/-- Witness for C1 at value 2 focused in `cfgTwoItems`: pressing Enter
commits Selection 2 and leaves FocusedValue at 2. -/
theorem commit_updates_selection_then_notifies_then_closes_witness :
    (applyOps stFocusTwo (handleMenuPressEnter cfgTwoItems stFocusTwo)).value
        = some (JSVal.num 2)
      ∧ (applyOps stFocusTwo
          (handleMenuPressEnter cfgTwoItems stFocusTwo)).focusItemValue
        = some (JSVal.num 2) :=
  ⟨(commit_updates_selection_then_notifies_then_closes cfgTwoItems stFocusTwo
      (JSVal.num 1) (JSVal.num 2) itemOne rfl (by decide)).2.2.1,
   (commit_updates_selection_then_notifies_then_closes cfgTwoItems stFocusTwo
      (JSVal.num 1) (JSVal.num 2) itemOne rfl (by decide)).2.2.2⟩

/-- C2: a clear request while disabled or with `cleanable` false performs no
operation at all — the state is unchanged and no callback (in particular no
`onChange`) is invoked; otherwise clearing sets Selection to null, resets
FocusedValue to the Selection current just before clearing, and its only
callback is `onChange` with null. -/
theorem clean_guarded_else_clears_and_notifies
    (cfg : PickerConfig) (s : PickerState) :
    ((cfg.disabled || !cfg.cleanable) = true →
        handleClean cfg s = [] ∧ applyOps s (handleClean cfg s) = s)
    ∧ ((cfg.disabled || !cfg.cleanable) = false →
        (applyOps s (handleClean cfg s)).value = none
        ∧ (applyOps s (handleClean cfg s)).focusItemValue = s.value
        ∧ (handleClean cfg s).filter isCallbackOp = [Op.onChange none]) := by
  constructor
  · intro h
    simp [handleClean, h, applyOps]
  · intro h
    simp [handleClean, h, handleChangeValueOps, applyOps, applyOp,
      isCallbackOp]

/-- Witness for C2: with `disabled` set the clear is a no-op on a state
holding Selection 1; with the default configuration it clears Selection. -/
theorem clean_guarded_else_clears_and_notifies_witness :
    applyOps { value := some (JSVal.num 1) }
        (handleClean { data := [itemOne], disabled := true }
          { value := some (JSVal.num 1) })
      = { value := some (JSVal.num 1) }
    ∧ (applyOps { value := some (JSVal.num 1) }
        (handleClean cfgTwoItems { value := some (JSVal.num 1) })).value
      = none :=
  ⟨((clean_guarded_else_clears_and_notifies
      { data := [itemOne], disabled := true }
      { value := some (JSVal.num 1) }).1 rfl).2,
   ((clean_guarded_else_clears_and_notifies cfgTwoItems
      { value := some (JSVal.num 1) }).2 rfl).1⟩

/-- C3: when FocusedValue is null/absent, pressing Enter performs no
operation: the trace is empty (hence no `onSelect`, no `onChange`, no state
change) and the handler — a total function — raises nothing. -/
theorem enter_without_focus_is_noop
    (cfg : PickerConfig) (s : PickerState)
    (h : s.focusItemValue = none) :
    handleMenuPressEnter cfg s = []
      ∧ applyOps s (handleMenuPressEnter cfg s) = s := by
  simp [handleMenuPressEnter, h, applyOps]

/-- Witness for C3 on the default (empty-focus) state over `cfgTwoItems`. -/
theorem enter_without_focus_is_noop_witness :
    handleMenuPressEnter cfgTwoItems { } = []
      ∧ applyOps { } (handleMenuPressEnter cfgTwoItems { }) = { } :=
  enter_without_focus_is_noop cfgTwoItems { } rfl

/-- C4: a search-keyword update sets FocusedValue to the value of the first
item of the new filtered result — `none` when that result is empty — stores
the new filtered result, and invokes `onSearch` with the keyword. -/
theorem search_update_sets_focus_and_notifies
    (cfg : PickerConfig) (kw : String) (s : PickerState) :
    (applyOps s (useSearchUpdate cfg kw)).focusItemValue
        = (match specFilterData kw cfg.data with
           | [] => none
           | item :: _ => some item.value)
      ∧ (applyOps s (useSearchUpdate cfg kw)).filteredData
        = specFilterData kw cfg.data
      ∧ Op.onSearch kw ∈ useSearchUpdate cfg kw := by
  refine ⟨?_, ?_, ?_⟩ <;>
    simp [useSearchUpdate, searchCallbackOps, applyOps, applyOp] <;>
    cases specFilterData kw cfg.data <;> simp

/-- C5: `hasValue` is computed in two passes — the final flag equals the
optimistic first pass (`true` iff Selection matches an Option in the data, or
Selection is non-null and `renderValue` is supplied) masked only by the case
in which the custom renderer was invoked and returned null/undefined; the
renderer is invoked exactly when Selection is non-null and `renderValue` is
supplied, and in every other case the flag is the uncorrected first pass. -/
theorem hasValue_two_pass_correction
    (cfg : PickerConfig) (value : Option JSVal) :
    (computeRender cfg value).hasValue
        = (hasValueFirstPass cfg value
            && !((computeRender cfg value).renderValueInvoked
                  && (computeRender cfg value).resultIsNil))
      ∧ hasValueFirstPass cfg value
        = ((findActiveItem cfg.data value).isSome
            || (value.isSome && cfg.renderValue.isSome))
      ∧ (computeRender cfg value).renderValueInvoked
        = (value.isSome && cfg.renderValue.isSome) := by
  refine ⟨?_, rfl, ?_⟩ <;>
    cases hv : value <;> cases hrv : cfg.renderValue <;>
      simp [computeRender, RenderOutcome.resultIsNil, hasValueFirstPass, hrv]

/-- C7: opening the overlay (`handleEntered`) sets FocusedValue to the
current Selection, activates the component and fires `onOpen`; closing the
overlay (the key-down `onClose` wiring followed by `handleExited`) resets the
search keyword to the empty string, clears FocusedValue, deactivates and
fires `onClose`. -/
theorem overlay_open_and_close_transitions (s : PickerState) :
    ((applyOps s (handleEntered s)).focusItemValue = s.value
      ∧ (applyOps s (handleEntered s)).active = true
      ∧ Op.onOpen ∈ handleEntered s)
    ∧ ((applyOps s closeOverlayTransition).searchKeyword = ""
      ∧ (applyOps s closeOverlayTransition).focusItemValue = none
      ∧ (applyOps s closeOverlayTransition).active = false
      ∧ Op.onClose ∈ closeOverlayTransition) := by
  refine ⟨⟨?_, ?_, ?_⟩, ?_, ?_, ?_, ?_⟩ <;>
    simp [handleEntered, closeOverlayTransition, keyDownOnCloseOps,
      handleExited, applyOps, applyOp]

/-- C9 fails as stated: the claim's domain is every non-null FocusedValue,
but the guard `if (!focusItemValue) return` (line 231) is JS-falsy, so at the
non-null focused values `0` and the empty string — legitimate option values
for `T extends number | string` — Enter produces no operation at all: no
lookup, no commit, no `onSelect`. -/
theorem enter_with_nonnull_falsy_focus_counterexample :
    handleMenuPressEnter cfgTwoItems
        { focusItemValue := some (JSVal.num 0) } = []
      ∧ handleMenuPressEnter cfgTwoItems
        { focusItemValue := some (JSVal.str "") } = []
      ∧ ({ focusItemValue := some (JSVal.num 0) } :
          PickerState).focusItemValue ≠ none
      ∧ ({ focusItemValue := some (JSVal.str "") } :
          PickerState).focusItemValue ≠ none := by
  decide

/-- C9 as amended: when Enter is pressed with a non-null FocusedValue that
passes the JS-falsy guard (not `0`, not the empty string), the committed
Option is looked up in the full `data` list (never in the filtered list: the
trace is invariant under any replacement of the state's filtered list) using
`shallowEqual` on the value field, and when no Option matches, the commit
still proceeds over a total handler — the full trace below is produced, with
`onSelect` receiving `none` as its item argument; when the non-null focused
value is falsy, Enter commits nothing. -/
theorem enter_commit_looks_up_full_data
    (cfg : PickerConfig) (s : PickerState) (fv : JSVal)
    (hfv : s.focusItemValue = some fv) :
    (fv.truthy = true →
      handleMenuPressEnter cfg s =
        [Op.setValue (some fv),
         Op.onSelect fv (cfg.data.find? fun i => shallowEqual i.value fv),
         Op.focusTarget, Op.onChange (some fv), Op.closeOverlay]
      ∧ (∀ fd : List ItemData,
          handleMenuPressEnter cfg { s with filteredData := fd }
            = handleMenuPressEnter cfg s))
    ∧ (fv.truthy = false → handleMenuPressEnter cfg s = []) := by
  refine ⟨fun ht => ⟨?_, fun fd => ?_⟩, fun ht => ?_⟩ <;>
    simp [handleMenuPressEnter, hfv, ht, handleSelectOps,
      handleChangeValueOps, handleCloseOps]

/-- Witness for C9: focused value 9 matches nothing in `[itemOne]`, yet the
commit proceeds and `onSelect` carries `none` as the item; focused value 0 is
non-null but falsy, and Enter commits nothing. -/
theorem enter_commit_looks_up_full_data_witness :
    handleMenuPressEnter { data := [itemOne] }
        { focusItemValue := some (JSVal.num 9) }
      = [Op.setValue (some (JSVal.num 9)),
         Op.onSelect (JSVal.num 9) none, Op.focusTarget,
         Op.onChange (some (JSVal.num 9)), Op.closeOverlay]
    ∧ handleMenuPressEnter { data := [itemOne] }
        { focusItemValue := some (JSVal.num 0) } = [] :=
  ⟨((((enter_commit_looks_up_full_data { data := [itemOne] }
        { focusItemValue := some (JSVal.num 9) } (JSVal.num 9) rfl).1
        (by decide)).1)).trans (by decide),
   (enter_commit_looks_up_full_data { data := [itemOne] }
      { focusItemValue := some (JSVal.num 0) } (JSVal.num 0) rfl).2
      (by decide)⟩

/-- C10: an enabled clear invokes only the change callback — its callback
trace is exactly `onChange null`, it contains no `onSelect` and no overlay
close — and it leaves the overlay active flag and the search keyword
unchanged. -/
theorem clean_fires_only_change_and_keeps_overlay
    (cfg : PickerConfig) (s : PickerState)
    (hd : cfg.disabled = false) (hc : cfg.cleanable = true) :
    (handleClean cfg s).filter isCallbackOp = [Op.onChange none]
      ∧ Op.closeOverlay ∉ handleClean cfg s
      ∧ (∀ (v : JSVal) (it : Option ItemData),
          Op.onSelect v it ∉ handleClean cfg s)
      ∧ (applyOps s (handleClean cfg s)).active = s.active
      ∧ (applyOps s (handleClean cfg s)).searchKeyword = s.searchKeyword := by
  refine ⟨?_, ?_, ?_, ?_, ?_⟩ <;>
    simp [handleClean, hd, hc, handleChangeValueOps, isCallbackOp,
      applyOps, applyOp]

/-- Witness for C10: clearing a state with Selection 1, keyword "kw" and an
open overlay keeps the keyword and the active flag. -/
theorem clean_fires_only_change_and_keeps_overlay_witness :
    (applyOps
        { value := some (JSVal.num 1), searchKeyword := "kw", active := true }
        (handleClean cfgTwoItems
          { value := some (JSVal.num 1), searchKeyword := "kw",
            active := true })).active = true
    ∧ (applyOps
        { value := some (JSVal.num 1), searchKeyword := "kw", active := true }
        (handleClean cfgTwoItems
          { value := some (JSVal.num 1), searchKeyword := "kw",
            active := true })).searchKeyword = "kw" :=
  ⟨(clean_fires_only_change_and_keeps_overlay cfgTwoItems
      { value := some (JSVal.num 1), searchKeyword := "kw", active := true }
      rfl rfl).2.2.2.1,
   (clean_fires_only_change_and_keeps_overlay cfgTwoItems
      { value := some (JSVal.num 1), searchKeyword := "kw", active := true }
      rfl rfl).2.2.2.2⟩

/-- Numeric comparator on the value field, as a caller would pass through
the `sort` prop. -/
def numCmp : ItemData → ItemData → Int := fun a b =>
  match a.value, b.value with
  | .num x, .num y => x - y
  | _, _ => 0

/-- Configuration with no grouping and a flat numeric sort comparator. -/
def cfgSortedFlat : PickerConfig := { sort := some fun _ => numCmp }

/-- State whose filtered list is out of numeric order. -/
def stUnsorted : PickerState := { filteredData := [itemTwo, itemOne] }

/-- C6, at the failing input: with `groupBy` unset and a `sort` comparator
configured, rendering the menu executes `items.sort(sort(false))` on
`items = filteredData` (line 335) — `Array.prototype.sort` sorts its
receiver in place, so the filtered list held in state is reordered by the
transform instead of being left unchanged. -/
theorem flat_sort_mutates_state_filtered_list :
    (renderMenuItems cfgSortedFlat stUnsorted).2.filteredData
        = [itemOne, itemTwo]
      ∧ (renderMenuItems cfgSortedFlat stUnsorted).2.filteredData
        ≠ stUnsorted.filteredData := by
  decide

/-- Custom renderer that returns null for every input. -/
def renderNilFn : JSVal → Option ItemData → RNode → RNode :=
  fun _ _ _ => RNode.nil

/-- Configuration where the Selection matches `itemOne`, the custom renderer
returns null, and both a configured and a locale placeholder exist. -/
def cfgRenderNil : PickerConfig :=
  { data := [itemOne], renderValue := some renderNilFn,
    placeholder := RNode.text "Custom",
    localePlaceholder := RNode.text "LocaleDefault" }

/-- Option whose label is the empty string. -/
def itemBlankLabel : ItemData :=
  { value := JSVal.num 3, label := RNode.text "" }

/-- Configuration where the Selection matches an option with an empty
label. -/
def cfgBlankLabel : PickerConfig :=
  { data := [itemBlankLabel], placeholder := RNode.text "Custom",
    localePlaceholder := RNode.text "LocaleDefault" }

/-- C8 fails as stated, at two concrete inputs. First: Selection 1 matches
`itemOne` (label "One"), `renderValue` is supplied but returns null — the
claim's priority then demands the matched label, yet the code displays the
locale default placeholder (neither the label nor the configured
placeholder). Second: Selection 3 matches an option whose label is the empty
string and no renderer is supplied — the claim demands that matched label,
yet the code displays the configured placeholder. -/
theorem display_priority_counterexample :
    ((computeRender cfgRenderNil (some (JSVal.num 1))).displayed
        = RNode.text "LocaleDefault"
      ∧ (computeRender cfgRenderNil (some (JSVal.num 1))).displayed
        ≠ itemOne.label
      ∧ (computeRender cfgRenderNil (some (JSVal.num 1))).displayed
        ≠ cfgRenderNil.placeholder)
    ∧ ((computeRender cfgBlankLabel (some (JSVal.num 3))).displayed
        = RNode.text "Custom"
      ∧ (computeRender cfgBlankLabel (some (JSVal.num 3))).displayed
        ≠ itemBlankLabel.label) := by
  decide

/-- C8 as amended: the toggle displays, in priority order, the
custom-rendered value when `renderValue` is supplied, Selection is non-null
and the result is truthy; the locale default placeholder when the renderer
was invoked but its result is empty/falsy; otherwise the matched option's
label when Selection matches an Option and the label is non-empty; otherwise
the configured placeholder when non-empty; otherwise the locale default
placeholder — the code's displayed content equals this cascade on every
input. -/
theorem display_priority_amended
    (cfg : PickerConfig) (value : Option JSVal) :
    (computeRender cfg value).displayed = specDisplayedContent cfg value := by
  cases hv : value with
  | none =>
    cases hrv : cfg.renderValue <;>
      simp [computeRender, specDisplayedContent, findActiveItem, hrv]
  | some v =>
    cases hrv : cfg.renderValue with
    | none =>
      cases hai : findActiveItem cfg.data (some v) <;>
        simp [computeRender, specDisplayedContent, hrv, hai] <;>
        rename_i item <;> cases hl : item.label.truthy <;> simp [hl]
    | some rv =>
      cases hai : findActiveItem cfg.data (some v) <;>
        simp [computeRender, specDisplayedContent, labelOrPlaceholder,
          hrv, hai]

end SelectPicker
